import Mathlib

/-!
Verification of the httpr retry transport (KarlGW/httpr).

This file shallowly embeds the retry core of the repository:
* policy.go - the `RetryPolicy` value, `StandardShouldRetry`,
  `ExponentialBackoff` and `defaultRetryPolicy`;
* transport.go - `Transport`, `Transport.RoundTrip` (the attempt loop),
  `resetRequest` and `drainResponse`;
* options.go - `WithRetryPolicy`.

Modelling conventions:
* `time.Duration` (an int64 nanosecond count) is modelled as `Int`.
  Where the source arithmetic can leave the int64 range - the
  multiplication inside `ExponentialBackoff` - the two's-complement
  wraparound is modelled explicitly (`wrap64`), and the
  float-to-Duration conversion of the power is `pow2Duration`.
* Go `nil`-able values (`*http.Response`, `error`, the function fields of
  `RetryPolicy`, `http.RoundTripper`) are modelled as `Option`.
* The underlying transport, the cancellation race and the body factory
  are nondeterministic environment inputs, collected in `Env` and indexed
  by the attempt number: the Go loop performs exactly one underlying call,
  at most one wait and at most one `GetBody` call per iteration, and the
  request variable handed to them never changes, so indexing by iteration
  is faithful.
* A Go run-time panic (nil-pointer dereference) is modelled explicitly:
  a retry predicate returns `Option Bool` where `none` is a panic, and
  the loop result records `panicked`.
* Reading a request body consumes the body stream.  Body streams are
  identified by numeric ids; the loop records, for every underlying call,
  which stream id was sent and whether that stream instance had already
  been consumed by an earlier attempt of the same call.
-/

namespace Httpr

/-- Go `time.Duration`: a count of nanoseconds (int64 in Go). -/
abbrev Duration := Int

/-- `time.Millisecond` in nanoseconds. -/
def millisecond : Duration := 1000000

/-- `time.Second` in nanoseconds. -/
def second : Duration := 1000000000

/-- Model of `*http.Response` as seen by the retry core: the status code
and the behaviour of draining its body (`none` = `io.Copy` succeeds,
`some code` = `io.Copy` fails with the error identified by `code`). -/
structure Response where
  statusCode : Int
  drainResult : Option Nat
deriving DecidableEq

/-- Model of the Go `error` values that can appear in the retry core,
tagged by their origin.  The numeric code is an opaque identity. -/
inductive GoError where
  | transport (code : Nat)
  | drain (code : Nat)
  | getBody (code : Nat)
  | context (code : Nat)
deriving DecidableEq

/-- The pair returned by one `tr.tr.RoundTrip` call. -/
structure Outcome where
  resp : Option Response
  err : Option GoError
deriving DecidableEq

/-- Model of `*http.Request` as seen by the retry core: the identity of
its current body stream (`none` = no body), whether `GetBody` is set, and
the error code `r.Context().Err()` reports once the context is done. -/
structure Request where
  body : Option Nat
  hasGetBody : Bool
  ctxErrCode : Nat
deriving DecidableEq

/-- The `ShouldRetry` function type of policy.go
(`func(r *http.Response, err error) bool`).  The result `none` models a
run-time panic inside the predicate (a Go nil-pointer dereference). -/
abbrev ShouldRetryFn := Option Response → Option GoError → Option Bool

/-- The `Backoff` function type of policy.go
(`func(delay, maxDelay time.Duration, retry int) time.Duration`).  The
`retry` argument is the zero-based count of retries already performed;
the executor only ever passes its loop counter, which is nonnegative,
hence `Nat`. -/
abbrev BackoffFn := Duration → Duration → Nat → Duration

/-- `RetryPolicy` of policy.go.  The two function fields are nilable in
Go and therefore `Option` here. -/
structure RetryPolicy where
  shouldRetry : Option ShouldRetryFn
  backoff : Option BackoffFn
  minDelay : Duration
  maxDelay : Duration
  maxRetries : Int

/-- `RetryPolicy.IsZero` of policy.go: true when every field is at its
zero value. -/
def RetryPolicy.IsZero (r : RetryPolicy) : Bool :=
  r.shouldRetry.isNone && r.backoff.isNone && r.minDelay == 0 &&
    r.maxDelay == 0 && r.maxRetries == 0

/-- `StandardShouldRetry` of policy.go.  A non-nil error is always
retryable; otherwise the status code of the response is inspected via
`r.StatusCode`.  When the response itself is nil and the error is nil,
the Go code dereferences a nil pointer, modelled as `none` (panic). -/
def StandardShouldRetry : ShouldRetryFn := fun r err =>
  match err with
  | some _ => some true
  | none =>
    match r with
    | none => none
    | some resp =>
      if resp.statusCode = 0 then some true
      else if resp.statusCode = 408 ∨ resp.statusCode = 429 then some true
      else if resp.statusCode = 500 ∨ resp.statusCode = 502 ∨
          resp.statusCode = 503 ∨ resp.statusCode = 504 then some true
      else some false

/-- Reduction of ideal-integer arithmetic to int64 two's-complement
wraparound: the representative of `x` modulo `2^64` that lies in
`[-2^63, 2^63)`.  Go integer arithmetic on `time.Duration` (an int64)
wraps this way on overflow. -/
def wrap64 (x : Int) : Int := (x + 2 ^ 63) % 2 ^ 64 - 2 ^ 63

/-- `time.Duration(math.Pow(2, float64(retry)))` of policy.go:
`math.Pow(2, n)` is the exact float64 `2^n` (finite up to `n = 1023`,
plus infinity beyond), and its conversion to int64 is exact while
`2^retry` is representable, that is for `retry ≤ 62`.  For `retry ≥ 63`
the value is out of int64 range and the Go conversion result is
implementation-dependent; the amd64 behaviour (the int64 minimum) is
used here, and no theorem depends on this region. -/
def pow2Duration (retry : Nat) : Int :=
  if retry ≤ 62 then 2 ^ retry else -(2 ^ 63)

/-- `ExponentialBackoff` of policy.go:
`d := minDelay * time.Duration(math.Pow(2, float64(retry)))`, then
`if d >= maxDelay { d = maxDelay }`.  The conversion of the power is
`pow2Duration`; the multiplication is int64 arithmetic and therefore
wraps (`wrap64`) when the product leaves `[-2^63, 2^63)`. -/
def ExponentialBackoff : BackoffFn := fun minDelay maxDelay retry =>
  let d := wrap64 (minDelay * pow2Duration retry)
  if maxDelay ≤ d then maxDelay else d

/-- `defaultRetryPolicy` of policy.go.  `defaultShouldRetry` and
`defaultBackoff` are the package-level aliases of `StandardShouldRetry`
and `ExponentialBackoff`. -/
def defaultRetryPolicy : RetryPolicy :=
  { shouldRetry := some StandardShouldRetry
    backoff := some ExponentialBackoff
    minDelay := 500 * millisecond
    maxDelay := 5 * second
    maxRetries := 3 }

/-- Modelled from the spec: the jitter factor of the built-in default
policy in the repository revision whose `RetryPolicy` carries a `Jitter`
field.  That revision is present in the repository only through its
callers (the README, the `part_005` tests and the `part_003` transport);
its `defaultRetryPolicy` is not among the sources.  Spec section 4.3:
jitter = 0.2. -/
def defaultJitter : ℚ := 1 / 5

/-- `Transport` of transport.go: the underlying `http.RoundTripper`
(`none` = nil; round trippers are identified by a numeric id) and the
retry policy. -/
structure Transport where
  tr : Option Nat
  rp : RetryPolicy

/-- The id standing for `http.DefaultTransport`. -/
def httpDefaultTransport : Nat := 0

/-- `WithRetryPolicy` of options.go: assigns `tr.rp` only when the given
policy is not the zero value. -/
def WithRetryPolicy (retryPolicy : RetryPolicy) : Transport → Transport :=
  fun tr => if retryPolicy.IsZero then tr else { tr with rp := retryPolicy }

/-- Environment of one `Transport.RoundTrip` call, indexed by the loop
iteration: the outcome of the n-th underlying `tr.tr.RoundTrip` call,
whether cancellation wins the `select` race during the n-th wait, and
the result of the n-th `r.GetBody()` call (a fresh body stream id, or an
error code). -/
structure Env where
  attempt : Nat → Outcome
  cancelWins : Nat → Bool
  getBody : Nat → Except Nat Nat

/-- `drainResponse` of transport.go: nil response is a no-op; otherwise
the body is closed and copied to `io.Discard`, surfacing any copy
error. -/
def drainResponse : Option Response → Option GoError
  | none => none
  | some resp => Option.map GoError.drain resp.drainResult

/-- `resetRequest` of transport.go: clone the request (the clone shares
the current body stream), and when both `r.Body` and `r.GetBody` are
non-nil, fetch a fresh body from `r.GetBody()` and attach it to the
clone.  The final Go statement `r = req` only rebinds the local
parameter; the clone is returned. -/
def resetRequest (env : Env) (r : Request) (n : Nat) : Except GoError Request :=
  let req := r
  if r.body.isSome && r.hasGetBody then
    match env.getBody n with
    | Except.error code => Except.error (GoError.getBody code)
    | Except.ok freshId => Except.ok { req with body := some freshId }
  else
    Except.ok req

/-- Observable result of one `Transport.RoundTrip` call: the returned
response and error, whether a predicate panic unwound the call, the
number of underlying transport invocations, the body stream sent by each
invocation together with a flag telling whether that stream instance had
already been consumed by an earlier attempt of the same call, and the
backoff delays of the waits that ran to completion. -/
structure RunResult where
  resp : Option Response
  err : Option GoError
  panicked : Bool
  attempts : Nat
  sent : List (Option Nat × Bool)
  delays : List Duration
deriving DecidableEq

/-- The body stream sent by one underlying invocation, paired with the
already-consumed flag. -/
def sentEntry (r : Request) (consumed : List Nat) : Option Nat × Bool :=
  (r.body, match r.body with
           | some id => consumed.contains id
           | none => false)

/-- Sending the request reads its body: its current stream id joins the
consumed set. -/
def consumeBody (r : Request) (consumed : List Nat) : List Nat :=
  match r.body with
  | some id => id :: consumed
  | none => consumed

/-- The `for` loop of `Transport.RoundTrip` (transport.go).  `i` is the
loop variable `retries` (also the index of the current underlying
invocation - the loop performs exactly one invocation per iteration);
`budget` is `(MaxRetries - retries).toNat`, so the Go guard
`retries >= tr.rp.MaxRetries` is exactly `budget = 0`; `consumed` is the
set of body stream ids read by earlier invocations of this call.  Source
order is preserved: invoke, decide - the predicate runs first in every
case, because Go evaluates the left operand of
`!tr.rp.ShouldRetry(resp, err) || retries >= tr.rp.MaxRetries`
unconditionally, and with `budget = 0` the outcome is then returned
whatever the verdict - then compute the delay, race the timer against
the context, and on the timer path drain the response and call
`resetRequest` -
whose result the Go code assigns to the blank identifier, so the request
sent next is the unchanged `r`. -/
def loopGo (env : Env) (sr : ShouldRetryFn) (bo : BackoffFn)
    (minD maxD : Duration) (r : Request) :
    Nat → Nat → List Nat → RunResult
  | i, 0, consumed =>
    match sr (env.attempt i).resp (env.attempt i).err with
    | none =>
      { resp := none, err := none, panicked := true, attempts := 1,
        sent := [sentEntry r consumed], delays := [] }
    | some _ =>
      { resp := (env.attempt i).resp, err := (env.attempt i).err,
        panicked := false, attempts := 1,
        sent := [sentEntry r consumed], delays := [] }
  | i, budget' + 1, consumed =>
    match sr (env.attempt i).resp (env.attempt i).err with
    | none =>
      { resp := none, err := none, panicked := true, attempts := 1,
        sent := [sentEntry r consumed], delays := [] }
    | some false =>
      { resp := (env.attempt i).resp, err := (env.attempt i).err,
        panicked := false, attempts := 1,
        sent := [sentEntry r consumed], delays := [] }
    | some true =>
      let d := bo minD maxD i
      if env.cancelWins i then
        { resp := none, err := some (GoError.context r.ctxErrCode),
          panicked := false, attempts := 1,
          sent := [sentEntry r consumed], delays := [] }
      else
        match drainResponse (env.attempt i).resp with
        | some e =>
          { resp := none, err := some e, panicked := false, attempts := 1,
            sent := [sentEntry r consumed], delays := [d] }
        | none =>
          match resetRequest env r i with
          | Except.error e =>
            { resp := none, err := some e, panicked := false, attempts := 1,
              sent := [sentEntry r consumed], delays := [d] }
          | Except.ok _ =>
            let rest := loopGo env sr bo minD maxD r (i + 1) budget'
              (consumeBody r consumed)
            { resp := rest.resp, err := rest.err, panicked := rest.panicked,
              attempts := rest.attempts + 1, sent := sentEntry r consumed :: rest.sent,
              delays := d :: rest.delays }

/-- The defaulting prologue of `Transport.RoundTrip` (transport.go),
which mutates the receiver: a nil underlying transport becomes
`http.DefaultTransport`, a zero policy becomes `defaultRetryPolicy()`,
then a nil `ShouldRetry` becomes the constant-false predicate and a nil
`Backoff` the constant-zero delay. -/
def applyDefaults (tr : Transport) : Transport :=
  let tr := if tr.tr.isNone then { tr with tr := some httpDefaultTransport } else tr
  let tr := if tr.rp.IsZero then { tr with rp := defaultRetryPolicy } else tr
  let tr := if tr.rp.shouldRetry.isNone then
      { tr with rp := { tr.rp with shouldRetry := some (fun _ _ => some false) } }
    else tr
  let tr := if tr.rp.backoff.isNone then
      { tr with rp := { tr.rp with backoff := some (fun _ _ _ => 0) } }
    else tr
  tr

/-- Result of one `Transport.RoundTrip` call: the run of the attempt
loop plus the state the (pointer) receiver is left in. -/
structure RoundTripOut where
  result : RunResult
  post : Transport

/-- `Transport.RoundTrip` of transport.go: apply the defaulting
prologue to the receiver, then run the attempt loop with the effective
predicate and backoff, starting at `retries = 0` with no body stream
consumed yet. -/
def Transport.RoundTrip (env : Env) (tr : Transport) (r : Request) : RoundTripOut :=
  let t := applyDefaults tr
  { result := loopGo env (t.rp.shouldRetry.getD (fun _ _ => some false))
      (t.rp.backoff.getD (fun _ _ _ => 0))
      t.rp.minDelay t.rp.maxDelay r 0 t.rp.maxRetries.toNat []
    post := t }

/-! Concrete scenarios used by the closed theorems and witnesses. -/

/-- Environment whose every attempt returns status 500 with a cleanly
draining body, no transport error, no cancellation, and a body factory
producing the fresh stream ids 100, 101, ... -/
def envAlways500 : Env :=
  { attempt := fun _ =>
      { resp := some { statusCode := 500, drainResult := none }, err := none }
    cancelWins := fun _ => false
    getBody := fun n => Except.ok (100 + n) }

/-- Environment whose attempt 0 returns status 500 and every later
attempt status 200, with no cancellation and a working body factory. -/
def envRecoverAt1 : Env :=
  { attempt := fun n =>
      { resp := some { statusCode := if n = 0 then 500 else 200, drainResult := none }
        err := none }
    cancelWins := fun _ => false
    getBody := fun n => Except.ok (100 + n) }

/-- A request carrying body stream 1 and a body factory. -/
def reqWithBody : Request := { body := some 1, hasGetBody := true, ctxErrCode := 9 }

/-- A bodyless request. -/
def reqNoBody : Request := { body := none, hasGetBody := false, ctxErrCode := 4 }

/-- A fully configured transport allowing one retry. -/
def trRetryOnce : Transport :=
  { tr := some 7
    rp := { shouldRetry := some StandardShouldRetry
            backoff := some ExponentialBackoff
            minDelay := 1, maxDelay := 5, maxRetries := 1 } }

/-- A fully configured transport allowing two retries. -/
def trRetryTwo : Transport :=
  { tr := some 7
    rp := { shouldRetry := some StandardShouldRetry
            backoff := some ExponentialBackoff
            minDelay := 1, maxDelay := 5, maxRetries := 2 } }

/-- The zero transport: nil underlying transport, zero policy. -/
def trZero : Transport :=
  { tr := none
    rp := { shouldRetry := none, backoff := none
            minDelay := 0, maxDelay := 0, maxRetries := 0 } }

/-- The status codes on which `StandardShouldRetry` retries when the
error is nil: 0 (absent status) and 408, 429, 500, 502, 503, 504. -/
def retryStatusCodes : List Int := [0, 408, 429, 500, 502, 503, 504]

/-- A transport with a non-zero policy whose `ShouldRetry` is nil. -/
def trNoPredicate : Transport :=
  { tr := some 7
    rp := { shouldRetry := none, backoff := some ExponentialBackoff
            minDelay := 1, maxDelay := 5, maxRetries := 3 } }

/-- A transport with a non-zero policy whose `Backoff` is nil. -/
def trNoBackoff : Transport :=
  { tr := some 7
    rp := { shouldRetry := some StandardShouldRetry, backoff := none
            minDelay := 1, maxDelay := 5, maxRetries := 3 } }

/-- Environment in which cancellation wins every wait race. -/
def envCancelAt0 : Env :=
  { attempt := fun _ =>
      { resp := some { statusCode := 500, drainResult := none }, err := none }
    cancelWins := fun _ => true
    getBody := fun n => Except.ok (100 + n) }

/-- Environment whose responses are retryable but fail to drain with
error code 5. -/
def envDrainFail : Env :=
  { attempt := fun _ =>
      { resp := some { statusCode := 500, drainResult := some 5 }, err := none }
    cancelWins := fun _ => false
    getBody := fun n => Except.ok (100 + n) }

/-- Modelled from the spec (section 4.2): the capped exponential delay
`min(minDelay * 2^attemptIndex, maxDelay)` over exact rationals, the
deterministic part of the jittered backoff.  The jittered backoff
implementation itself is not among the sources (see
`ExponentialBackoffJittered`). -/
def cappedDelay (minDelay maxDelay : ℚ) (i : Nat) : ℚ :=
  min (minDelay * 2 ^ i) maxDelay

/-- Modelled from the spec (section 4.2): the random jitter offset,
uniformly distributed in `[-jitter*d, +jitter*d)` for capped delay `d`.
The uniform sample `u ∈ [0,1)` is an explicit input and the offset is
its affine image `jitter * d * (2u - 1)`, so a uniform `u` yields a
uniform offset over that range. -/
def jitterOffset (minDelay maxDelay jitter : ℚ) (i : Nat) (u : ℚ) : ℚ :=
  jitter * cappedDelay minDelay maxDelay i * (2 * u - 1)

/-- Modelled from the spec (section 4.2): the jittered exponential
backoff of the repository revision whose `RetryPolicy` carries a
`Jitter` field.  Its implementation is not among the sources - only the
README, the `part_005` tests and the `part_003` transport reference it -
so it is modelled from the spec words: cap the exponential delay at
`maxDelay`, add the uniform offset when jitter > 0, then clamp to
`[0, maxDelay]`. -/
def ExponentialBackoffJittered (minDelay maxDelay jitter : ℚ) (i : Nat) (u : ℚ) : ℚ :=
  let d := cappedDelay minDelay maxDelay i
  if 0 < jitter then
    max 0 (min maxDelay (d + jitterOffset minDelay maxDelay jitter i u))
  else d

/-! Unfolding lemmas for the attempt loop, one per exit path. -/

/-- If the predicate rejects the outcome of the current invocation, the
loop returns it verbatim after this single invocation. -/
theorem loopGo_false_step (env : Env) (sr : ShouldRetryFn) (bo : BackoffFn)
    (minD maxD : Duration) (r : Request) (i budget : Nat) (consumed : List Nat)
    (h0 : sr (env.attempt i).resp (env.attempt i).err = some false) :
    loopGo env sr bo minD maxD r i budget consumed =
      { resp := (env.attempt i).resp, err := (env.attempt i).err, panicked := false,
        attempts := 1, sent := [sentEntry r consumed], delays := [] } := by
  cases budget <;> simp only [loopGo, h0]

/-- With the retry budget exhausted (`retries >= MaxRetries`), the loop
returns the current outcome verbatim even when it is retryable. -/
theorem loopGo_exhausted_step (env : Env) (sr : ShouldRetryFn) (bo : BackoffFn)
    (minD maxD : Duration) (r : Request) (i : Nat) (consumed : List Nat)
    (h0 : sr (env.attempt i).resp (env.attempt i).err = some true) :
    loopGo env sr bo minD maxD r i 0 consumed =
      { resp := (env.attempt i).resp, err := (env.attempt i).err, panicked := false,
        attempts := 1, sent := [sentEntry r consumed], delays := [] } := by
  simp only [loopGo, h0]

/-- If cancellation wins the race during the wait, the loop aborts with
the context error, no drain, no replay, no further invocation, and the
wait does not run to completion. -/
theorem loopGo_cancel_step (env : Env) (sr : ShouldRetryFn) (bo : BackoffFn)
    (minD maxD : Duration) (r : Request) (i k : Nat) (consumed : List Nat)
    (h0 : sr (env.attempt i).resp (env.attempt i).err = some true)
    (hc : env.cancelWins i = true) :
    loopGo env sr bo minD maxD r i (k + 1) consumed =
      { resp := none, err := some (GoError.context r.ctxErrCode), panicked := false,
        attempts := 1, sent := [sentEntry r consumed], delays := [] } := by
  simp [loopGo, h0, hc]

/-- If the retryable response fails to drain, the loop aborts with the
drain error and a nil response, with no further invocation. -/
theorem loopGo_drainFail_step (env : Env) (sr : ShouldRetryFn) (bo : BackoffFn)
    (minD maxD : Duration) (r : Request) (i k : Nat) (consumed : List Nat)
    (e : GoError)
    (h0 : sr (env.attempt i).resp (env.attempt i).err = some true)
    (hc : env.cancelWins i = false)
    (hd : drainResponse (env.attempt i).resp = some e) :
    loopGo env sr bo minD maxD r i (k + 1) consumed =
      { resp := none, err := some e, panicked := false,
        attempts := 1, sent := [sentEntry r consumed],
        delays := [bo minD maxD i] } := by
  simp [loopGo, h0, hc, hd]

/-- If regenerating the request body fails, the loop aborts with that
error and a nil response, with no further invocation. -/
theorem loopGo_resetFail_step (env : Env) (sr : ShouldRetryFn) (bo : BackoffFn)
    (minD maxD : Duration) (r : Request) (i k : Nat) (consumed : List Nat)
    (e : GoError)
    (h0 : sr (env.attempt i).resp (env.attempt i).err = some true)
    (hc : env.cancelWins i = false)
    (hd : drainResponse (env.attempt i).resp = none)
    (hr : resetRequest env r i = Except.error e) :
    loopGo env sr bo minD maxD r i (k + 1) consumed =
      { resp := none, err := some e, panicked := false,
        attempts := 1, sent := [sentEntry r consumed],
        delays := [bo minD maxD i] } := by
  simp [loopGo, h0, hc, hd, hr]

/-- The continuing step of the loop: retryable outcome, budget left, no
cancellation, clean drain, successful reset - one more invocation plus
the rest of the run, with the consumed body stream recorded. -/
theorem loopGo_succ_step (env : Env) (sr : ShouldRetryFn) (bo : BackoffFn)
    (minD maxD : Duration) (r : Request) (i k : Nat) (consumed : List Nat)
    (r2 : Request)
    (h0 : sr (env.attempt i).resp (env.attempt i).err = some true)
    (hc : env.cancelWins i = false)
    (hd : drainResponse (env.attempt i).resp = none)
    (hr : resetRequest env r i = Except.ok r2) :
    loopGo env sr bo minD maxD r i (k + 1) consumed =
      { resp := (loopGo env sr bo minD maxD r (i + 1) k (consumeBody r consumed)).resp
        err := (loopGo env sr bo minD maxD r (i + 1) k (consumeBody r consumed)).err
        panicked := (loopGo env sr bo minD maxD r (i + 1) k (consumeBody r consumed)).panicked
        attempts :=
          (loopGo env sr bo minD maxD r (i + 1) k (consumeBody r consumed)).attempts + 1
        sent := sentEntry r consumed ::
          (loopGo env sr bo minD maxD r (i + 1) k (consumeBody r consumed)).sent
        delays := bo minD maxD i ::
          (loopGo env sr bo minD maxD r (i + 1) k (consumeBody r consumed)).delays } := by
  simp [loopGo, h0, hc, hd, hr]

/-- A constant-false predicate stops the loop after one invocation. -/
theorem loopGo_const_false (env : Env) (bo : BackoffFn) (minD maxD : Duration)
    (r : Request) (i budget : Nat) (consumed : List Nat) :
    loopGo env (fun _ _ => some false) bo minD maxD r i budget consumed =
      { resp := (env.attempt i).resp, err := (env.attempt i).err, panicked := false,
        attempts := 1, sent := [sentEntry r consumed], delays := [] } :=
  loopGo_false_step env (fun _ _ => some false) bo minD maxD r i budget consumed rfl

/-- With the budget exhausted from the start, the loop performs exactly
one invocation whatever the outcome, the predicate and even a predicate
panic. -/
theorem loopGo_budget_zero (env : Env) (sr : ShouldRetryFn) (bo : BackoffFn)
    (minD maxD : Duration) (r : Request) (i : Nat) (consumed : List Nat) :
    (loopGo env sr bo minD maxD r i 0 consumed).attempts = 1 := by
  simp only [loopGo]
  cases h : sr (env.attempt i).resp (env.attempt i).err with
  | none => rfl
  | some b => cases b <;> rfl

/-! Claim theorems. -/

/-- C1: the claim says every retried attempt sends a freshly
materialized, unread body whenever the request has a body and a
`GetBody` source.  The code violates this: `Transport.RoundTrip` assigns
the clone built by `resetRequest` to the blank identifier, so the retried
attempt re-sends the original request.  Concretely: with a request
carrying body stream 1 and a working body factory, a policy allowing one
retry and a transport always answering 500, the run makes two attempts
and the second one sends stream 1 again, already consumed - even though
`resetRequest` did produce a fresh clone carrying the new stream 100. -/
theorem c1_retried_attempt_resends_consumed_body :
    (Transport.RoundTrip envAlways500 trRetryOnce reqWithBody).result.sent =
      [(some 1, false), (some 1, true)] ∧
    (Transport.RoundTrip envAlways500 trRetryOnce reqWithBody).result.attempts = 2 ∧
    resetRequest envAlways500 reqWithBody 0 =
      Except.ok { body := some 100, hasGetBody := true, ctxErrCode := 9 } :=
  ⟨rfl, rfl, rfl⟩

/-- C2 counterexample: the claim says `RoundTrip` leaves `tr.tr` and
`tr.rp` unchanged for every transport.  On the zero transport the
defaulting prologue mutates both: the nil underlying transport becomes
`http.DefaultTransport` and the zero policy becomes the default policy
(`MaxRetries` 3). -/
theorem c2_counterexample_zero_transport_mutated :
    (Transport.RoundTrip envAlways500 trZero reqNoBody).post.rp.maxRetries = 3 ∧
    trZero.rp.maxRetries = 0 ∧
    (Transport.RoundTrip envAlways500 trZero reqNoBody).post.tr =
      some httpDefaultTransport ∧
    trZero.tr = none ∧
    (Transport.RoundTrip envAlways500 trZero reqNoBody).post.rp.maxRetries ≠
      trZero.rp.maxRetries := by
  refine ⟨rfl, rfl, rfl, rfl, by decide⟩

/-- C2 (amended): `RoundTrip` leaves the transport configuration
unchanged provided the underlying transport is non-nil and the policy is
non-zero with both `ShouldRetry` and `Backoff` set; only missing pieces
are filled in on first use, and the attempt loop itself stores nothing
on the transport. -/
theorem c2_roundTrip_preserves_configured_transport (env : Env) (tr : Transport)
    (r : Request) (h1 : tr.tr.isSome = true) (h2 : tr.rp.IsZero = false)
    (h3 : tr.rp.shouldRetry.isSome = true) (h4 : tr.rp.backoff.isSome = true) :
    (Transport.RoundTrip env tr r).post = tr := by
  obtain ⟨a, ha⟩ := Option.isSome_iff_exists.mp h1
  obtain ⟨s, hs⟩ := Option.isSome_iff_exists.mp h3
  obtain ⟨b, hb⟩ := Option.isSome_iff_exists.mp h4
  simp [Transport.RoundTrip, applyDefaults, ha, hs, hb, h2]

/-- C2 witness: a concrete fully configured transport is returned
untouched. -/
theorem c2_witness :
    (Transport.RoundTrip envAlways500 trRetryOnce reqNoBody).post = trRetryOnce :=
  c2_roundTrip_preserves_configured_transport envAlways500 trRetryOnce reqNoBody
    rfl rfl rfl rfl

/-- C6 counterexample: the claim says `StandardShouldRetry` returns true
(and does not fail) on a nil response with nil error; the Go code
dereferences the nil response pointer there (modelled as `none`,
a panic), so it does not return true. -/
theorem c6_counterexample_nil_response_nil_error_panics :
    StandardShouldRetry none none = none ∧
    StandardShouldRetry none none ≠ some true := by
  decide

/-- C6 (amended): `StandardShouldRetry` returns true iff the error is
non-nil or a response is present whose status code is 0 (absent or
malformed status) or one of 408, 429, 500, 502, 503, 504; on every other
present status code it returns false; on a nil response with nil error
the Go implementation dereferences a nil pointer (panics) instead of
returning. -/
theorem c6_standardShouldRetry_spec (r : Option Response) (e : Option GoError) :
    (StandardShouldRetry r e = some true ↔
      e.isSome = true ∨ ∃ resp, r = some resp ∧ resp.statusCode ∈ retryStatusCodes) ∧
    (e = none → r = none → StandardShouldRetry r e = none) ∧
    (∀ resp, e = none → r = some resp → resp.statusCode ∉ retryStatusCodes →
      StandardShouldRetry r e = some false) := by
  cases e with
  | some err => simp [StandardShouldRetry]
  | none =>
    cases r with
    | none => simp [StandardShouldRetry]
    | some resp =>
      refine ⟨?_, by simp, ?_⟩
      · constructor
        · intro h
          refine Or.inr ⟨resp, rfl, ?_⟩
          by_contra hmem
          simp only [retryStatusCodes, List.mem_cons, List.not_mem_nil,
            or_false] at hmem
          push_neg at hmem
          obtain ⟨n0, n408, n429, n500, n502, n503, n504⟩ := hmem
          simp [StandardShouldRetry, n0, n408, n429, n500, n502, n503, n504] at h
        · rintro (h | ⟨resp2, hr2, hmem⟩)
          · simp at h
          · obtain rfl : resp = resp2 := Option.some_inj.mp hr2
            simp only [retryStatusCodes, List.mem_cons, List.not_mem_nil,
              or_false] at hmem
            rcases hmem with h | h | h | h | h | h | h <;>
              simp [StandardShouldRetry, h]
      · intro resp2 _ hr hmem
        obtain rfl : resp = resp2 := Option.some_inj.mp hr
        simp only [retryStatusCodes, List.mem_cons, List.not_mem_nil,
          or_false] at hmem
        push_neg at hmem
        obtain ⟨n0, n408, n429, n500, n502, n503, n504⟩ := hmem
        simp [StandardShouldRetry, n0, n408, n429, n500, n502, n503, n504]

/-- C6 witness: status 404 with nil error is not retried; status 503
with nil error is retried. -/
theorem c6_witness :
    StandardShouldRetry (some { statusCode := 404, drainResult := none }) none =
      some false ∧
    StandardShouldRetry (some { statusCode := 503, drainResult := none }) none =
      some true :=
  ⟨(c6_standardShouldRetry_spec (some { statusCode := 404, drainResult := none })
      none).2.2 _ rfl rfl (by decide),
   (c6_standardShouldRetry_spec (some { statusCode := 503, drainResult := none })
      none).1.mpr (Or.inr ⟨_, rfl, by decide⟩)⟩

/-- `wrap64` is the identity on values already inside the int64
range. -/
theorem wrap64_eq_of_mem (x : Int) (h1 : -(2 ^ 63) ≤ x) (h2 : x < 2 ^ 63) :
    wrap64 x = x := by
  have e1 : ((2 : Int) ^ 63) = 9223372036854775808 := by norm_num
  have e2 : ((2 : Int) ^ 64) = 18446744073709551616 := by norm_num
  unfold wrap64
  rw [e1, e2]
  rw [e1] at h1 h2
  omega

/-- C7 counterexample: at the default policy's own bounds (minDelay
500 ms, maxDelay 5 s) and attempt index 35, the int64 product
`minDelay * 2^35` wraps to a negative value, the `d >= maxDelay` cap
does not fire, and the function returns that negative delay instead of
`min (minDelay * 2^35) maxDelay = 5 s`. -/
theorem c7_counterexample_int64_wrap :
    ExponentialBackoff (500 * millisecond) (5 * second) 35 =
      -1266874889709551616 ∧
    min (500 * millisecond * 2 ^ 35) (5 * second) = 5 * second ∧
    ExponentialBackoff (500 * millisecond) (5 * second) 35 ≠
      min (500 * millisecond * 2 ^ 35) (5 * second) ∧
    ExponentialBackoff (500 * millisecond) (5 * second) 35 < 0 := by
  refine ⟨?_, ?_, ?_, ?_⟩ <;> decide

/-- C7 (amended): with the nonnegativity and ordering assumptions of
the policy data model, and whenever the product fits in int64
(`i ≤ 62`, so the float-to-Duration conversion of the power is exact,
and `minDelay * 2^i < 2^63`, so the int64 multiplication does not
wrap), `ExponentialBackoff` computes exactly
`min (minDelay * 2 ^ i) maxDelay` for the i-th retry (the zero-based
retry count, which the executor loop passes explicitly).  The source
`ExponentialBackoff` of policy.go takes no jitter argument, so the
jitter = 0 qualification of the claim holds vacuously. -/
theorem c7_exponentialBackoff_exact (minDelay maxDelay : Duration) (i : Nat)
    (h1 : 0 ≤ minDelay) (h2 : minDelay ≤ maxDelay)
    (hi : i ≤ 62) (hfit : minDelay * 2 ^ i < 2 ^ 63) :
    ExponentialBackoff minDelay maxDelay i = min (minDelay * 2 ^ i) maxDelay := by
  have hp : pow2Duration i = 2 ^ i := by
    unfold pow2Duration
    rw [if_pos hi]
  have hge : (0 : Int) ≤ minDelay * 2 ^ i := mul_nonneg h1 (by positivity)
  have hw : wrap64 (minDelay * pow2Duration i) = minDelay * 2 ^ i := by
    rw [hp]
    exact wrap64_eq_of_mem _ (le_trans (by norm_num) hge) hfit
  simp only [ExponentialBackoff]
  rw [hw]
  split
  · exact (min_eq_right (by assumption)).symm
  · exact (min_eq_left (le_of_not_le (by assumption))).symm

/-- C7 witness at minDelay = 2 ms, maxDelay = 10 ms, i = 3, far inside
the int64 range. -/
theorem c7_witness :
    ExponentialBackoff (2 * millisecond) (10 * millisecond) 3 =
      min (2 * millisecond * 2 ^ 3) (10 * millisecond) :=
  c7_exponentialBackoff_exact (2 * millisecond) (10 * millisecond) 3
    (by decide) (by decide) (by decide) (by decide)

/-- C10: applying `WithRetryPolicy` with a zero policy leaves the
transport unchanged; a non-zero policy replaces the stored policy and
touches nothing else. -/
theorem c10_withRetryPolicy_zero_noop (p : RetryPolicy) (tr : Transport) :
    (p.IsZero = true → WithRetryPolicy p tr = tr) ∧
    (p.IsZero = false → WithRetryPolicy p tr = { tr with rp := p }) := by
  constructor <;> intro h <;> simp [WithRetryPolicy, h]

/-- C10 witness: the zero policy leaves a configured transport alone;
a non-zero policy (maxRetries 7) replaces the stored policy. -/
theorem c10_witness :
    WithRetryPolicy
      { shouldRetry := none, backoff := none
        minDelay := 0, maxDelay := 0, maxRetries := 0 } trRetryOnce = trRetryOnce ∧
    (WithRetryPolicy
      { shouldRetry := none, backoff := none
        minDelay := 0, maxDelay := 0, maxRetries := 7 } trRetryOnce).rp.maxRetries = 7 :=
  ⟨(c10_withRetryPolicy_zero_noop
      { shouldRetry := none, backoff := none
        minDelay := 0, maxDelay := 0, maxRetries := 0 } trRetryOnce).1 rfl,
   by rw [(c10_withRetryPolicy_zero_noop
      { shouldRetry := none, backoff := none
        minDelay := 0, maxDelay := 0, maxRetries := 7 } trRetryOnce).2 rfl]⟩

/-- Under a cancellation-free, cleanly draining, successfully resetting
environment, when the predicate accepts every outcome up to the budget,
the loop spends the whole budget and returns the final outcome
verbatim. -/
theorem loopGo_all_retryable (env : Env) (sr : ShouldRetryFn) (bo : BackoffFn)
    (minD maxD : Duration) (r : Request)
    (hC : ∀ n, env.cancelWins n = false)
    (hD : ∀ n, drainResponse (env.attempt n).resp = none)
    (hR : ∀ n, ∃ r2, resetRequest env r n = Except.ok r2) :
    ∀ (budget i : Nat) (consumed : List Nat),
      (∀ j, j ≤ budget →
        sr (env.attempt (i + j)).resp (env.attempt (i + j)).err = some true) →
      (loopGo env sr bo minD maxD r i budget consumed).attempts = budget + 1 ∧
      (loopGo env sr bo minD maxD r i budget consumed).resp =
        (env.attempt (i + budget)).resp ∧
      (loopGo env sr bo minD maxD r i budget consumed).err =
        (env.attempt (i + budget)).err := by
  intro budget
  induction budget with
  | zero =>
    intro i consumed hret
    have h0 := hret 0 (Nat.le_refl 0)
    rw [Nat.add_zero] at h0
    rw [loopGo_exhausted_step env sr bo minD maxD r i consumed h0]
    exact ⟨rfl, rfl, rfl⟩
  | succ k ih =>
    intro i consumed hret
    have h0 := hret 0 (Nat.zero_le _)
    rw [Nat.add_zero] at h0
    obtain ⟨r2, hr2⟩ := hR i
    rw [loopGo_succ_step env sr bo minD maxD r i k consumed r2 h0 (hC i) (hD i) hr2]
    have hnext : ∀ j, j ≤ k →
        sr (env.attempt (i + 1 + j)).resp (env.attempt (i + 1 + j)).err =
          some true := by
      intro j hj
      have h := hret (j + 1) (Nat.succ_le_succ hj)
      rwa [show i + (j + 1) = i + 1 + j by omega] at h
    have ihx := ih (i + 1) (consumeBody r consumed) hnext
    refine ⟨?_, ?_, ?_⟩
    · simpa using ihx.1
    · simpa [show i + 1 + k = i + (k + 1) by omega] using ihx.2.1
    · simpa [show i + 1 + k = i + (k + 1) by omega] using ihx.2.2

/-- Under the same environment assumptions, when the predicate accepts
the first `k` outcomes and rejects the k-th (with `k` within budget),
the loop makes exactly `k + 1` invocations and returns the k-th outcome
verbatim. -/
theorem loopGo_first_false (env : Env) (sr : ShouldRetryFn) (bo : BackoffFn)
    (minD maxD : Duration) (r : Request)
    (hC : ∀ n, env.cancelWins n = false)
    (hD : ∀ n, drainResponse (env.attempt n).resp = none)
    (hR : ∀ n, ∃ r2, resetRequest env r n = Except.ok r2) :
    ∀ (k budget i : Nat) (consumed : List Nat), k ≤ budget →
      (∀ j, j < k →
        sr (env.attempt (i + j)).resp (env.attempt (i + j)).err = some true) →
      sr (env.attempt (i + k)).resp (env.attempt (i + k)).err = some false →
      (loopGo env sr bo minD maxD r i budget consumed).attempts = k + 1 ∧
      (loopGo env sr bo minD maxD r i budget consumed).resp =
        (env.attempt (i + k)).resp ∧
      (loopGo env sr bo minD maxD r i budget consumed).err =
        (env.attempt (i + k)).err := by
  intro k
  induction k with
  | zero =>
    intro budget i consumed hkb hpre h0
    rw [Nat.add_zero] at h0
    rw [loopGo_false_step env sr bo minD maxD r i budget consumed h0]
    exact ⟨rfl, rfl, rfl⟩
  | succ k ih =>
    intro budget i consumed hkb hpre hlast
    obtain ⟨b2, rfl⟩ : ∃ b2, budget = b2 + 1 := ⟨budget - 1, by omega⟩
    have h0 := hpre 0 (Nat.succ_pos k)
    rw [Nat.add_zero] at h0
    obtain ⟨r2, hr2⟩ := hR i
    rw [loopGo_succ_step env sr bo minD maxD r i b2 consumed r2 h0 (hC i) (hD i) hr2]
    have ihx := ih b2 (i + 1) (consumeBody r consumed) (by omega)
      (fun j hj => by
        have h := hpre (j + 1) (Nat.succ_lt_succ hj)
        rwa [show i + (j + 1) = i + 1 + j by omega] at h)
      (by rwa [show i + (k + 1) = i + 1 + k by omega] at hlast)
    refine ⟨?_, ?_, ?_⟩
    · simpa using ihx.1
    · simpa [show i + 1 + k = i + (k + 1) by omega] using ihx.2.1
    · simpa [show i + 1 + k = i + (k + 1) by omega] using ihx.2.2

/-- Every wait the loop completes under the substituted constant-zero
backoff has delay zero. -/
theorem loopGo_zero_backoff_delays (env : Env) (sr : ShouldRetryFn)
    (minD maxD : Duration) (r : Request) :
    ∀ (budget i : Nat) (consumed : List Nat) (d : Duration),
      d ∈ (loopGo env sr (fun _ _ _ => 0) minD maxD r i budget consumed).delays →
      d = 0 := by
  intro budget
  induction budget with
  | zero =>
    intro i consumed d hd
    simp only [loopGo] at hd
    cases h : sr (env.attempt i).resp (env.attempt i).err <;>
      rw [h] at hd <;> simp at hd
  | succ k ih =>
    intro i consumed d hd
    cases h : sr (env.attempt i).resp (env.attempt i).err with
    | none =>
      simp only [loopGo] at hd
      rw [h] at hd
      simp at hd
    | some b =>
      cases b with
      | false =>
        rw [loopGo_false_step env sr _ minD maxD r i (k + 1) consumed h] at hd
        simp at hd
      | true =>
        cases hc : env.cancelWins i with
        | true =>
          rw [loopGo_cancel_step env sr _ minD maxD r i k consumed h hc] at hd
          simp at hd
        | false =>
          cases hdr : drainResponse (env.attempt i).resp with
          | some e =>
            rw [loopGo_drainFail_step env sr _ minD maxD r i k consumed e h hc hdr]
              at hd
            simpa using hd
          | none =>
            cases hrr : resetRequest env r i with
            | error e =>
              rw [loopGo_resetFail_step env sr _ minD maxD r i k consumed e
                h hc hdr hrr] at hd
              simpa using hd
            | ok r2 =>
              rw [loopGo_succ_step env sr _ minD maxD r i k consumed r2
                h hc hdr hrr] at hd
              simp only [List.mem_cons] at hd
              rcases hd with rfl | hd
              · rfl
              · exact ih (i + 1) (consumeBody r consumed) d hd

/-- With a policy whose predicate and backoff are both set, the result
of `Transport.RoundTrip` is exactly the run of the attempt loop with
these functions, the policy bounds, and budget `MaxRetries.toNat`. -/
theorem roundTrip_result_eq (env : Env) (tr : Transport) (r : Request)
    (sr : ShouldRetryFn) (bo : BackoffFn)
    (hs : tr.rp.shouldRetry = some sr) (hb : tr.rp.backoff = some bo) :
    (Transport.RoundTrip env tr r).result =
      loopGo env sr bo tr.rp.minDelay tr.rp.maxDelay r 0
        tr.rp.maxRetries.toNat [] := by
  have hz : tr.rp.IsZero = false := by
    simp [RetryPolicy.IsZero, hs]
  cases htr : tr.tr with
  | none => simp [Transport.RoundTrip, applyDefaults, htr, hz, hs, hb]
  | some a => simp [Transport.RoundTrip, applyDefaults, htr, hz, hs, hb]

/-- C3: with a configured predicate and backoff, `maxRetries = m ≥ 0`,
no cancellation, cleanly draining responses and a working reset: if the
predicate accepts every outcome up to index m, `RoundTrip` makes exactly
`m + 1` underlying invocations and returns the final outcome verbatim;
if the first rejected outcome has index `k ≤ m`, it makes exactly
`k + 1` invocations and returns that outcome verbatim; and with
`maxRetries = 0` exactly one invocation happens whatever the outcome
(no non-cancellation or drain assumptions are needed for that part). -/
theorem c3_attempt_counts (env : Env) (tr : Transport) (r : Request)
    (sr : ShouldRetryFn) (bo : BackoffFn) (m : Nat)
    (hs : tr.rp.shouldRetry = some sr) (hb : tr.rp.backoff = some bo)
    (hm : tr.rp.maxRetries = (m : Int))
    (hC : ∀ n, env.cancelWins n = false)
    (hD : ∀ n, drainResponse (env.attempt n).resp = none)
    (hR : ∀ n, ∃ r2, resetRequest env r n = Except.ok r2) :
    ((∀ j, j ≤ m → sr (env.attempt j).resp (env.attempt j).err = some true) →
      (Transport.RoundTrip env tr r).result.attempts = m + 1 ∧
      (Transport.RoundTrip env tr r).result.resp = (env.attempt m).resp ∧
      (Transport.RoundTrip env tr r).result.err = (env.attempt m).err) ∧
    (∀ k, k ≤ m →
      (∀ j, j < k → sr (env.attempt j).resp (env.attempt j).err = some true) →
      sr (env.attempt k).resp (env.attempt k).err = some false →
      (Transport.RoundTrip env tr r).result.attempts = k + 1 ∧
      (Transport.RoundTrip env tr r).result.resp = (env.attempt k).resp ∧
      (Transport.RoundTrip env tr r).result.err = (env.attempt k).err) ∧
    (m = 0 → (Transport.RoundTrip env tr r).result.attempts = 1) := by
  have hres := roundTrip_result_eq env tr r sr bo hs hb
  have hmn : tr.rp.maxRetries.toNat = m := by omega
  rw [hres, hmn]
  refine ⟨?_, ?_, ?_⟩
  · intro hall
    have h := loopGo_all_retryable env sr bo tr.rp.minDelay tr.rp.maxDelay r
      hC hD hR m 0 [] (fun j hj => by simpa using hall j hj)
    exact ⟨by simpa using h.1, by simpa using h.2.1, by simpa using h.2.2⟩
  · intro k hk hpre hlast
    have h := loopGo_first_false env sr bo tr.rp.minDelay tr.rp.maxDelay r
      hC hD hR k m 0 [] hk (fun j hj => by simpa using hpre j hj)
      (by simpa using hlast)
    exact ⟨by simpa using h.1, by simpa using h.2.1, by simpa using h.2.2⟩
  · intro hm0
    subst hm0
    exact loopGo_budget_zero env sr bo tr.rp.minDelay tr.rp.maxDelay r 0 []

/-- C3 witness: with `envRecoverAt1` (500 then 200) and two allowed
retries, the standard predicate accepts attempt 0 and rejects attempt 1,
so the run makes exactly two invocations and returns the 200 response. -/
theorem c3_witness :
    (Transport.RoundTrip envRecoverAt1 trRetryTwo reqNoBody).result.attempts = 2 ∧
    (Transport.RoundTrip envRecoverAt1 trRetryTwo reqNoBody).result.resp =
      some { statusCode := 200, drainResult := none } ∧
    (Transport.RoundTrip envRecoverAt1 trRetryTwo reqNoBody).result.err = none := by
  have h := (c3_attempt_counts envRecoverAt1 trRetryTwo reqNoBody
      StandardShouldRetry ExponentialBackoff 2 rfl rfl rfl
      (fun _ => rfl) (fun _ => rfl) (fun n => ⟨reqNoBody, rfl⟩)).2.1 1
    (by omega)
    (fun j hj => by
      have hj0 : j = 0 := by omega
      subst hj0
      decide)
    (by decide)
  exact ⟨h.1, h.2.1, h.2.2⟩

/-- C8: if a retryable outcome sends the loop into the wait (the budget
is not exhausted, so `retries < MaxRetries`) and the cancellation signal
wins the race before the delay completes, the loop returns immediately:
nil response, the context error of the request, exactly this one
invocation, no completed delay - and, since no assumption is made about
the drain behaviour of the pending response, no drain and no replay take
place.  `loopGo` is the attempt loop of `Transport.RoundTrip`. -/
theorem c8_cancellation_aborts (env : Env) (sr : ShouldRetryFn) (bo : BackoffFn)
    (minD maxD : Duration) (r : Request) (i k : Nat) (consumed : List Nat)
    (hretry : sr (env.attempt i).resp (env.attempt i).err = some true)
    (hcancel : env.cancelWins i = true) :
    loopGo env sr bo minD maxD r i (k + 1) consumed =
      { resp := none, err := some (GoError.context r.ctxErrCode),
        panicked := false, attempts := 1,
        sent := [sentEntry r consumed], delays := [] } :=
  loopGo_cancel_step env sr bo minD maxD r i k consumed hretry hcancel

/-- C8 witness: cancellation during the first wait, with a retryable
500 response pending, yields the context error after one invocation. -/
theorem c8_witness :
    loopGo envCancelAt0 StandardShouldRetry ExponentialBackoff 1 5 reqNoBody 0 3 [] =
      { resp := none, err := some (GoError.context 4), panicked := false,
        attempts := 1, sent := [(none, false)], delays := [] } := by
  rw [c8_cancellation_aborts envCancelAt0 StandardShouldRetry ExponentialBackoff
    1 5 reqNoBody 0 2 [] (by decide) rfl]
  rfl

/-- C9: if the response that triggered a retry fails to drain (budget
not exhausted, cancellation does not fire), the loop aborts with the
drain error and a nil response after this single invocation - the drain
error, not the discarded response, is the result, and no further attempt
is made; and draining an absent response is a no-op returning no
error. -/
theorem c9_drain_error_aborts (env : Env) (sr : ShouldRetryFn) (bo : BackoffFn)
    (minD maxD : Duration) (r : Request) (i k : Nat) (consumed : List Nat)
    (e : GoError)
    (hretry : sr (env.attempt i).resp (env.attempt i).err = some true)
    (hcancel : env.cancelWins i = false)
    (hdrain : drainResponse (env.attempt i).resp = some e) :
    (loopGo env sr bo minD maxD r i (k + 1) consumed =
      { resp := none, err := some e, panicked := false, attempts := 1,
        sent := [sentEntry r consumed], delays := [bo minD maxD i] }) ∧
    drainResponse none = none :=
  ⟨loopGo_drainFail_step env sr bo minD maxD r i k consumed e hretry hcancel hdrain,
   rfl⟩

/-- C9 witness: a retryable 500 response whose body fails to drain with
code 5 makes the loop return the drain error after one invocation. -/
theorem c9_witness :
    (loopGo envDrainFail StandardShouldRetry ExponentialBackoff 1 5 reqNoBody 0 3 [] =
      { resp := none, err := some (GoError.drain 5), panicked := false,
        attempts := 1, sent := [(none, false)], delays := [1] }) ∧
    drainResponse none = none := by
  have h := c9_drain_error_aborts envDrainFail StandardShouldRetry ExponentialBackoff
    1 5 reqNoBody 0 2 [] (GoError.drain 5) (by decide) rfl rfl
  exact ⟨by rw [h.1]; rfl, h.2⟩

/-- C5: a zero policy at first use is replaced by the built-in default
(standard predicate, exponential backoff, maxRetries 3, minDelay 500 ms,
maxDelay 5 s; the jitter factor 0.2 belongs to the spec-modelled
jittered revision, `defaultJitter`, since the policy revision among the
sources has no jitter field); a non-zero policy with nil predicate makes
the run perform exactly one attempt and return its outcome verbatim (not
an error); a non-zero policy with nil backoff makes every completed wait
have delay zero. -/
theorem c5_zero_policy_defaults (env : Env) (tr : Transport) (r : Request) :
    (tr.rp.IsZero = true →
      (Transport.RoundTrip env tr r).post.rp = defaultRetryPolicy ∧
      defaultRetryPolicy.shouldRetry = some StandardShouldRetry ∧
      defaultRetryPolicy.backoff = some ExponentialBackoff ∧
      defaultRetryPolicy.maxRetries = 3 ∧
      defaultRetryPolicy.minDelay = 500 * millisecond ∧
      defaultRetryPolicy.maxDelay = 5 * second ∧
      defaultJitter = 1 / 5) ∧
    (tr.rp.IsZero = false → tr.rp.shouldRetry = none →
      (Transport.RoundTrip env tr r).result.attempts = 1 ∧
      (Transport.RoundTrip env tr r).result.resp = (env.attempt 0).resp ∧
      (Transport.RoundTrip env tr r).result.err = (env.attempt 0).err) ∧
    (tr.rp.IsZero = false → tr.rp.backoff = none →
      ∀ d ∈ (Transport.RoundTrip env tr r).result.delays, d = 0) := by
  refine ⟨?_, ?_, ?_⟩
  · intro hz
    refine ⟨?_, rfl, rfl, rfl, rfl, rfl, rfl⟩
    cases htr : tr.tr <;>
      simp [Transport.RoundTrip, applyDefaults, htr, hz, defaultRetryPolicy]
  · intro hz hsn
    have hEff : (applyDefaults tr).rp.shouldRetry = some (fun _ _ => some false) := by
      cases htr : tr.tr <;> cases hbo : tr.rp.backoff <;>
        simp [applyDefaults, htr, hz, hsn, hbo]
    have hres : (Transport.RoundTrip env tr r).result =
        loopGo env (fun _ _ => some false)
          ((applyDefaults tr).rp.backoff.getD (fun _ _ _ => 0))
          (applyDefaults tr).rp.minDelay (applyDefaults tr).rp.maxDelay r 0
          (applyDefaults tr).rp.maxRetries.toNat [] := by
      simp only [Transport.RoundTrip]
      rw [hEff]
      rfl
    rw [hres, loopGo_const_false]
    exact ⟨rfl, rfl, rfl⟩
  · intro hz hbo
    have hEff : (applyDefaults tr).rp.backoff = some (fun _ _ _ => 0) := by
      cases htr : tr.tr <;> cases hsr : tr.rp.shouldRetry <;>
        simp [applyDefaults, htr, hz, hbo, hsr]
    have hres : (Transport.RoundTrip env tr r).result =
        loopGo env ((applyDefaults tr).rp.shouldRetry.getD (fun _ _ => some false))
          (fun _ _ _ => 0)
          (applyDefaults tr).rp.minDelay (applyDefaults tr).rp.maxDelay r 0
          (applyDefaults tr).rp.maxRetries.toNat [] := by
      simp only [Transport.RoundTrip]
      rw [hEff]
      rfl
    rw [hres]
    intro d hd
    exact loopGo_zero_backoff_delays env
      ((applyDefaults tr).rp.shouldRetry.getD (fun _ _ => some false))
      (applyDefaults tr).rp.minDelay (applyDefaults tr).rp.maxDelay r
      (applyDefaults tr).rp.maxRetries.toNat 0 [] d hd

/-- C5 witness: the zero transport receives the default policy; a
policy with nil predicate yields exactly one attempt; a policy with nil
backoff yields only zero delays. -/
theorem c5_witness :
    (Transport.RoundTrip envAlways500 trZero reqNoBody).post.rp =
      defaultRetryPolicy ∧
    (Transport.RoundTrip envAlways500 trNoPredicate reqNoBody).result.attempts = 1 ∧
    (∀ d ∈ (Transport.RoundTrip envAlways500 trNoBackoff reqNoBody).result.delays,
      d = 0) :=
  ⟨((c5_zero_policy_defaults envAlways500 trZero reqNoBody).1 rfl).1,
   ((c5_zero_policy_defaults envAlways500 trNoPredicate reqNoBody).2.1 rfl rfl).1,
   (c5_zero_policy_defaults envAlways500 trNoBackoff reqNoBody).2.2 rfl rfl⟩

/-- C4: for policy-invariant inputs (0 ≤ minDelay ≤ maxDelay, jitter
strictly between 0 and 1) and any uniform sample u ∈ [0,1), the
spec-modelled jittered backoff lies in
`[d*(1-jitter), d*(1+jitter)] ∩ [0, maxDelay]` for capped delay `d`, and
the jitter offset lies in `[-jitter*d, +jitter*d)` (the upper bound is
strict whenever d > 0; at d = 0 that half-open interval is empty and the
offset is 0). -/
theorem c4_jittered_backoff_bounds (minDelay maxDelay jitter : ℚ) (i : Nat) (u : ℚ)
    (hmin : 0 ≤ minDelay) (hmm : minDelay ≤ maxDelay)
    (hj0 : 0 < jitter) (hj1 : jitter < 1) (hu0 : 0 ≤ u) (hu1 : u < 1) :
    cappedDelay minDelay maxDelay i * (1 - jitter) ≤
        ExponentialBackoffJittered minDelay maxDelay jitter i u ∧
    ExponentialBackoffJittered minDelay maxDelay jitter i u ≤
        cappedDelay minDelay maxDelay i * (1 + jitter) ∧
    0 ≤ ExponentialBackoffJittered minDelay maxDelay jitter i u ∧
    ExponentialBackoffJittered minDelay maxDelay jitter i u ≤ maxDelay ∧
    -(jitter * cappedDelay minDelay maxDelay i) ≤
        jitterOffset minDelay maxDelay jitter i u ∧
    (0 < cappedDelay minDelay maxDelay i →
      jitterOffset minDelay maxDelay jitter i u <
        jitter * cappedDelay minDelay maxDelay i) := by
  have hd0 : 0 ≤ cappedDelay minDelay maxDelay i := by
    unfold cappedDelay
    exact le_min (mul_nonneg hmin (by positivity)) (le_trans hmin hmm)
  have hdmax : cappedDelay minDelay maxDelay i ≤ maxDelay := min_le_right _ _
  have hmax0 : 0 ≤ maxDelay := le_trans hmin hmm
  set d := cappedDelay minDelay maxDelay i with hd
  have hoffl : -(jitter * d) ≤ jitterOffset minDelay maxDelay jitter i u := by
    unfold jitterOffset
    rw [← hd]
    nlinarith [mul_nonneg (mul_nonneg hj0.le hd0) hu0]
  have hoffu : jitterOffset minDelay maxDelay jitter i u ≤ jitter * d := by
    unfold jitterOffset
    rw [← hd]
    nlinarith [mul_nonneg (mul_nonneg hj0.le hd0) (by linarith : (0 : ℚ) ≤ 1 - u)]
  have hoffu2 : 0 < d →
      jitterOffset minDelay maxDelay jitter i u < jitter * d := by
    intro hdpos
    unfold jitterOffset
    rw [← hd]
    nlinarith [mul_pos (mul_pos hj0 hdpos) (by linarith : (0 : ℚ) < 1 - u)]
  have hbody : ExponentialBackoffJittered minDelay maxDelay jitter i u =
      max 0 (min maxDelay (d + jitterOffset minDelay maxDelay jitter i u)) := by
    unfold ExponentialBackoffJittered
    rw [← hd, if_pos hj0]
  rw [hbody]
  refine ⟨?_, ?_, le_max_left _ _, ?_, hoffl, hoffu2⟩
  · have h1 : d * (1 - jitter) ≤ d + jitterOffset minDelay maxDelay jitter i u := by
      nlinarith
    have h2 : d * (1 - jitter) ≤ maxDelay := by
      nlinarith [mul_nonneg hd0 hj0.le]
    exact le_trans (le_min h2 h1) (le_max_right _ _)
  · refine max_le (by nlinarith [mul_nonneg hd0 hj0.le]) ?_
    calc min maxDelay (d + jitterOffset minDelay maxDelay jitter i u) ≤
          d + jitterOffset minDelay maxDelay jitter i u := min_le_right _ _
      _ ≤ d * (1 + jitter) := by nlinarith
  · exact max_le hmax0 (min_le_left _ _)

/-- C4 witness at minDelay 1, maxDelay 10, jitter one half, attempt 0,
uniform sample one quarter. -/
theorem c4_witness :
    cappedDelay 1 10 0 * (1 - 1 / 2) ≤
        ExponentialBackoffJittered 1 10 (1 / 2) 0 (1 / 4) ∧
    ExponentialBackoffJittered 1 10 (1 / 2) 0 (1 / 4) ≤
        cappedDelay 1 10 0 * (1 + 1 / 2) ∧
    0 ≤ ExponentialBackoffJittered 1 10 (1 / 2) 0 (1 / 4) ∧
    ExponentialBackoffJittered 1 10 (1 / 2) 0 (1 / 4) ≤ 10 ∧
    -(1 / 2 * cappedDelay 1 10 0) ≤ jitterOffset 1 10 (1 / 2) 0 (1 / 4) ∧
    jitterOffset 1 10 (1 / 2) 0 (1 / 4) < 1 / 2 * cappedDelay 1 10 0 := by
  have h := c4_jittered_backoff_bounds 1 10 (1 / 2) 0 (1 / 4) (by norm_num)
    (by norm_num) (by norm_num) (by norm_num) (by norm_num) (by norm_num)
  refine ⟨h.1, h.2.1, h.2.2.1, h.2.2.2.1, h.2.2.2.2.1, h.2.2.2.2.2 ?_⟩
  show 0 < cappedDelay 1 10 0
  norm_num [cappedDelay]

end Httpr
